import Mathlib

/-!
Shallow embedding of `src/update-resource-metadata/__init__.py`, an Azure
Functions event handler that assigns owner tags to newly created resources.

Modelling conventions:
* Python strings are `String`; `str.split(sep)` (nonempty separator) is
  `pySplit`, `sep.join(xs)` is `pyJoin`, and the `in` substring test is
  `strContains`.
* JSON payloads (the result of `event.get_json()`) are `JValue` values;
  Python truthiness of such a value is `truthy`.
* Python exceptions are the `PyExc` type; fallible code returns
  `Except PyExc _`.  An `azure.core.exceptions.HttpResponseError` is
  modelled by `HttpError`, with the JSON body of the response already
  parsed: `statusCode` mirrors `error.status_code`, `errorCode` mirrors
  `json.loads(error.response.text())["error"]["code"]` and `errorMessage`
  mirrors `...["error"]["message"]`.  (A 400 response whose body is not of
  that shape is outside the model; no claim depends on it.)
* The external Azure SDK call `resource_client.resources.get(...)` is an
  oracle `GetFn` taking the resource group, resource type, resource name
  and api version (the remaining arguments `resource_provider_namespace`
  and `parent_resource_path` are the constant `""` in the source and are
  folded into the oracle).  Each invocation of the oracle is logged in a
  `List GetCall` trace so that "no API call occurs" is observable.
* The write `resource_client.tags.create_or_update_at_scope(resource,
  {"properties": {"tags": tags}})` is recorded as a `TagWrite` value
  rather than performed.
-/

/-- Model of Python list-of-chars prefix test (`needle` is a prefix of the
second argument). -/
def charsStartsWith : List Char → List Char → Bool
  | [], _ => true
  | _ :: _, [] => false
  | a :: as, b :: bs => a == b && charsStartsWith as bs

/-- Model of Python `sub in s` on lists of characters: `sub` occurs
contiguously in the second argument. -/
def charsContains (sub : List Char) : List Char → Bool
  | [] => charsStartsWith sub []
  | c :: rest => charsStartsWith sub (c :: rest) || charsContains sub rest

/-- Python `sub in s` for strings (substring containment). -/
def strContains (s sub : String) : Bool :=
  charsContains sub.data s.data

/-- Drop the first `n` characters of a list. -/
def charsDrop : Nat → List Char → List Char
  | 0, l => l
  | _ + 1, [] => []
  | n + 1, _ :: l => charsDrop n l

/-- Fuel-indexed worker for Python `str.split(sep)` with a nonempty
separator; the fuel is the length of the string being split, which always
suffices because every step consumes at least one character. -/
def splitOnAux (sep : List Char) : Nat → List Char → List (List Char)
  | _, [] => [[]]
  | 0, s => [s]
  | fuel + 1, c :: rest =>
    if charsStartsWith sep (c :: rest) then
      [] :: splitOnAux sep fuel (charsDrop (sep.length - 1) rest)
    else
      match splitOnAux sep fuel rest with
      | [] => [[c]]
      | h :: t => (c :: h) :: t

/-- Python `s.split(sep)`.  Every call site in the source uses a nonempty
separator (`"/"`, `","`, or the supported-versions marker), so the
empty-separator `ValueError` of Python is not modelled. -/
def pySplit (s sep : String) : List String :=
  (splitOnAux sep.data s.data.length s.data).map (fun cs => String.mk cs)

/-- Python `sep.join(xs)`. -/
def pyJoin (sep : String) : List String → String
  | [] => ""
  | [s] => s
  | s :: rest => s ++ sep ++ pyJoin sep rest

/-- JSON values, the result of `event.get_json()`. -/
inductive JValue where
  | null : JValue
  | bool : Bool → JValue
  | num : Int → JValue
  | str : String → JValue
  | arr : List JValue → JValue
  | obj : List (String × JValue) → JValue

/-- Python truthiness of a JSON value (`if email`, `if azure_resource`...). -/
def truthy : JValue → Bool
  | JValue.null => false
  | JValue.bool b => b
  | JValue.num n => !(n == 0)
  | JValue.str s => !(s == "")
  | JValue.arr xs => !xs.isEmpty
  | JValue.obj kvs => !kvs.isEmpty

/-- An `HttpResponseError` with the JSON body of the response already
parsed (see the module docstring). -/
structure HttpError where
  statusCode : Nat
  errorCode : String
  errorMessage : String

/-- Python exceptions that the embedded code can raise. -/
inductive PyExc where
  | typeError : PyExc
  | keyError : PyExc
  | indexError : PyExc
  | attributeError : PyExc
  | unboundLocalError : PyExc
  | httpResponseError : HttpError → PyExc

/-- Python `key in v` for a string key: key membership for a dict,
substring containment for a string, element membership for a list, and a
`TypeError` for the remaining (non-container) values. -/
def pyContains (v : JValue) (key : String) : Except PyExc Bool :=
  match v with
  | JValue.obj kvs => Except.ok (kvs.any (fun kv => kv.1 == key))
  | JValue.str s => Except.ok (strContains s key)
  | JValue.arr xs =>
    Except.ok (xs.any (fun x => match x with
      | JValue.str s => s == key
      | _ => false))
  | _ => Except.error PyExc.typeError

/-- Python `v[key]` for a string key: dict lookup (`KeyError` when the key
is absent), `TypeError` on any other value. -/
def pyGetItem (v : JValue) (key : String) : Except PyExc JValue :=
  match v with
  | JValue.obj kvs =>
    match kvs.find? (fun kv => kv.1 == key) with
    | some kv => Except.ok kv.2
    | none => Except.error PyExc.keyError
  | _ => Except.error PyExc.typeError

/-- Python `l[i]` on a list of strings: `IndexError` when `i` is out of
range (nonnegative indices only, which is all the source uses). -/
def listGet (l : List String) (i : Nat) : Except PyExc String :=
  match l.get? i with
  | some s => Except.ok s
  | none => Except.error PyExc.indexError

/-- `extract_resource_path`: "Cuts resource path to resource name" —
`"/".join(path.split("/")[:9])`. -/
def extract_resource_path (path : String) : String :=
  pyJoin "/" ((pySplit path "/").take 9)

/-- `extract_subscription_id`: `path.split("/")[2]`. -/
def extract_subscription_id (path : String) : Except PyExc String :=
  listGet (pySplit path "/") 2

def EMAIL_CLAIM_KEY : String :=
  "http://schemas.xmlsoap.org/ws/2005/05/identity/claims/name"

def ID_CLAIM_KEY : String :=
  "http://schemas.microsoft.com/identity/claims/objectidentifier"

def CLAIMS_KEY : String := "claims"

def RESOURCE_KEY : String := "resourceUri"

/-- `extract_metadata(json)`: pulls the two claim values and the truncated
resource path; fields stay `None`/`none` when the keys are absent.  The
resource component is `Option String` because `extract_resource_path` is
applied exactly when `resourceUri` is present (a non-string `resourceUri`
raises `AttributeError` at `path.split`). -/
def extract_metadata (json : JValue) : Except PyExc (JValue × JValue × Option String) := do
  let hasClaims ← pyContains json CLAIMS_KEY
  let idEmail ←
    if hasClaims then do
      let authorization_claims ← pyGetItem json CLAIMS_KEY
      let hasEmail ← pyContains authorization_claims EMAIL_CLAIM_KEY
      let email ←
        if hasEmail then pyGetItem authorization_claims EMAIL_CLAIM_KEY
        else pure JValue.null
      let hasId ← pyContains authorization_claims ID_CLAIM_KEY
      let id ←
        if hasId then pyGetItem authorization_claims ID_CLAIM_KEY
        else pure JValue.null
      pure (id, email)
    else pure (JValue.null, JValue.null)
  let hasResource ← pyContains json RESOURCE_KEY
  let resource ←
    if hasResource then do
      let rv ← pyGetItem json RESOURCE_KEY
      match rv with
      | JValue.str s => pure (some (extract_resource_path s))
      | _ => Except.error PyExc.attributeError
    else pure none
  return (idEmail.1, idEmail.2, resource)

def SUPPORTED_VERSIONS_MARKER : String := "The supported api-versions are '"

/-- `extract_version_from_error_message(message)`:
`message.split("The supported api-versions are '")[1].split(",")[0]`.
The `[1]` raises `IndexError` when the marker does not occur in the
message. -/
def extract_version_from_error_message (message : String) : Except PyExc String :=
  match listGet (pySplit message SUPPORTED_VERSIONS_MARKER) 1 with
  | Except.error e => Except.error e
  | Except.ok versions => listGet (pySplit versions ",") 0

/-- The resource object returned by `resource_client.resources.get`:
only its `tags` attribute is inspected (a dict of string tags, or `None`). -/
structure AzureResource where
  tags : Option (List (String × String))

/-- One recorded invocation of `resource_client.resources.get`.  The
source also passes `resource_provider_namespace=""` and
`parent_resource_path=""`; both are constants and are not recorded. -/
structure GetCall where
  resource_group_name : String
  resource_type : String
  resource_name : String
  api_version : String

/-- Oracle for the external `resource_client.resources.get` call, taking
the resource group name, resource type, resource name and api version. -/
abbrev GetFn := String → String → String → String → Except HttpError AzureResource

def API_VERSION : String := "2021-04-01"

/-- The invocation of `call_until_valid_api` with `api_version` set (the
recursive call of the source): `try` the lookup, and on
`HttpResponseError` re-raise it (`if api_version: raise error`), so this
invocation never recurses further. -/
def call_until_valid_api_versioned (get : GetFn) (resource_group_name resource_type resource_name api_version : String) :
    List GetCall × Except PyExc (Option AzureResource) :=
  match get resource_group_name resource_type resource_name api_version with
  | Except.ok r =>
    ([⟨resource_group_name, resource_type, resource_name, api_version⟩], Except.ok (some r))
  | Except.error error =>
    ([⟨resource_group_name, resource_type, resource_name, api_version⟩],
      Except.error (PyExc.httpResponseError error))

/-- `call_until_valid_api`: look the resource up at the hardcoded default
api version; on a 400 `HttpResponseError` with code
`"NoRegisteredProviderFound"`, parse the first supported version out of
the message and recurse once with it.  The source is a single recursive
function; because the recursive call always passes an explicit
`api_version` and that invocation re-raises every `HttpResponseError`,
the recursion depth is at most one, and the `api_version ≠ None` case is
embedded as `call_until_valid_api_versioned`.  Note the fall-through of
the Python `except` block: a caught `HttpResponseError` that is not a
400 with code `"NoRegisteredProviderFound"` reaches the end of the
function body, which returns `None`. -/
def call_until_valid_api (get : GetFn) (resource_group_name resource_type resource_name : String)
    (api_version : Option String) : List GetCall × Except PyExc (Option AzureResource) :=
  match api_version with
  | some v => call_until_valid_api_versioned get resource_group_name resource_type resource_name v
  | none =>
    match get resource_group_name resource_type resource_name API_VERSION with
    | Except.ok r =>
      ([⟨resource_group_name, resource_type, resource_name, API_VERSION⟩], Except.ok (some r))
    | Except.error error =>
      if error.statusCode = 400 then
        if error.errorCode = "NoRegisteredProviderFound" then
          match extract_version_from_error_message error.errorMessage with
          | Except.error e =>
            ([⟨resource_group_name, resource_type, resource_name, API_VERSION⟩], Except.error e)
          | Except.ok api_version2 =>
            let retry := call_until_valid_api_versioned get resource_group_name resource_type
              resource_name api_version2
            (⟨resource_group_name, resource_type, resource_name, API_VERSION⟩ :: retry.1, retry.2)
        else
          ([⟨resource_group_name, resource_type, resource_name, API_VERSION⟩], Except.ok none)
      else
        ([⟨resource_group_name, resource_type, resource_name, API_VERSION⟩], Except.ok none)

def USER_ID_TAG_NAME : String := "owner_id"

def EMAIL_TAG_NAME : String := "owner_email"

/-- The tag dict built at the top of `assign_owner`:
`{"owner_id": user_id, "owner_email": email if email else "ManagedIdentity"}`. -/
def owner_tags (user_id email : JValue) : List (String × JValue) :=
  [(USER_ID_TAG_NAME, user_id),
   (EMAIL_TAG_NAME, if truthy email then email else JValue.str "ManagedIdentity")]

/-- Key membership in a tag dict. -/
def hasTagKey (t : List (String × String)) (key : String) : Bool :=
  t.any (fun kv => kv.1 == key)

/-- Python falsiness of `azure_resource.tags` (`None` or `{}`). -/
def tagsFalsy : Option (List (String × String)) → Bool
  | none => true
  | some t => t.isEmpty

/-- The `if` condition of `assign_owner`, with Python evaluation order:
`azure_resource and not azure_resource.tags or (USER_ID_TAG_NAME not in
azure_resource.tags and EMAIL_TAG_NAME not in azure_resource.tags)`.
When `azure_resource` is `None` the first disjunct is the falsy `None`,
and evaluating the second disjunct dereferences `None.tags`, raising
`AttributeError`.  When the first disjunct is false the tags are a
nonempty dict, so the `in` tests cannot raise. -/
def owner_condition (azure_resource : Option AzureResource) : Except PyExc Bool :=
  match azure_resource with
  | none => Except.error PyExc.attributeError
  | some r =>
    if tagsFalsy r.tags then Except.ok true
    else
      match r.tags with
      | some t =>
        Except.ok (!(hasTagKey t USER_ID_TAG_NAME) && !(hasTagKey t EMAIL_TAG_NAME))
      | none => Except.error PyExc.typeError

/-- A recorded `resource_client.tags.create_or_update_at_scope(resource,
{"properties": {"tags": tags}})` call: the scope and the inner tag map. -/
structure TagWrite where
  scope : String
  tags : List (String × JValue)

/-- `assign_owner(user_id, email, resource)`: derive the subscription id
and the path segments (an out-of-range segment raises `IndexError`),
perform the fallback lookup, and write the owner tags when the condition
holds.  The `ResourceManagementClient`/credential construction is
external and effect-free in the model; the subscription id it receives is
still computed (and can raise) exactly as in the source. -/
def assign_owner (get : GetFn) (user_id email : JValue) (resource : String) :
    List GetCall × Except PyExc (Option TagWrite) :=
  let tags := owner_tags user_id email
  match extract_subscription_id resource with
  | Except.error e => ([], Except.error e)
  | Except.ok _subscription_id =>
    let path := pySplit resource "/"
    match listGet path 4 with
    | Except.error e => ([], Except.error e)
    | Except.ok resource_group_name =>
      match listGet path 6 with
      | Except.error e => ([], Except.error e)
      | Except.ok path6 =>
        match listGet path 7 with
        | Except.error e => ([], Except.error e)
        | Except.ok path7 =>
          match listGet path 8 with
          | Except.error e => ([], Except.error e)
          | Except.ok resource_name =>
            let resource_type := path6 ++ "/" ++ path7
            let lookup := call_until_valid_api get resource_group_name resource_type
              resource_name none
            match lookup.2 with
            | Except.error e => (lookup.1, Except.error e)
            | Except.ok azure_resource =>
              match owner_condition azure_resource with
              | Except.error e => (lookup.1, Except.error e)
              | Except.ok true =>
                (lookup.1, Except.ok (some { scope := resource, tags := tags }))
              | Except.ok false => (lookup.1, Except.ok none)

def IGNORED_RESOURCES : List String :=
  ["Microsoft.Resources/deployments", "Microsoft.Resources/tags"]

/-- The filter of `main`:
`any([ignored_resource in resource for ignored_resource in IGNORED_RESOURCES])`.
`resource` is `None` or a string at this point; the membership test on
`None` raises `TypeError`. -/
def ignored_check (resource : Option String) : Except PyExc Bool :=
  match resource with
  | none => Except.error PyExc.typeError
  | some s => Except.ok (IGNORED_RESOURCES.any (fun ig => strContains s ig))

/-- The observable outcome of a `main` invocation that returns normally:
the recorded lookup calls, the recorded tag write (if any), and what the
`except` handler logged (the exception and the value of `resource` in the
log message), if it ran. -/
structure MainOutcome where
  getCalls : List GetCall
  write : Option TagWrite
  logged : Option (PyExc × Option String)

/-- `main(event)`: extract, filter, assign, with the catch-all handler.
The handler logs `f"Error happened during runtime. With resource: {resource}"`;
when `extract_metadata` itself raises, the local `resource` is still
unbound, so evaluating the f-string raises `UnboundLocalError`, which the
handler does not catch — it propagates out of `main` (the `finally`
logging does not suppress it).  The timestamp bookkeeping and the
`finally` info log are effect-free and not modelled.  The prefix
`update_resource_metadata` (the source module's name) keeps the source's
name `main`, which Lean reserves at top level; the branch pairing
`Except.ok false` with `resource = none` is unreachable, because
`ignored_check none` raises. -/
def update_resource_metadata.main (get : GetFn) (event : JValue) : Except PyExc MainOutcome :=
  match extract_metadata event with
  | Except.error _ => Except.error PyExc.unboundLocalError
  | Except.ok (user_id, email, resource) =>
    match ignored_check resource with
    | Except.error e => Except.ok { getCalls := [], write := none, logged := some (e, resource) }
    | Except.ok true => Except.ok { getCalls := [], write := none, logged := none }
    | Except.ok false =>
      match resource with
      | none => Except.ok { getCalls := [], write := none, logged := none }
      | some res =>
        match assign_owner get user_id email res with
        | (calls, Except.error e) =>
          Except.ok { getCalls := calls, write := none, logged := some (e, some res) }
        | (calls, Except.ok w) =>
          Except.ok { getCalls := calls, write := w, logged := none }


/-! ## Claims -/

/-- Claim C1: for a versioned lookup started with no explicit api version,
if the initial lookup fails with a 400 response whose error code is
`"NoRegisteredProviderFound"` and whose message contains a parsable
supported-versions list, then exactly one retry of the lookup occurs
(the call trace has exactly the two entries), using the first version
listed in the message; and if that retry fails, its error is raised and
no further retry occurs. -/
theorem C1_retry_once_with_first_listed_version (get : GetFn)
    (rg rt rn : String) (e : HttpError) (v : String)
    (h1 : get rg rt rn API_VERSION = Except.error e)
    (h2 : e.statusCode = 400)
    (h3 : e.errorCode = "NoRegisteredProviderFound")
    (h4 : extract_version_from_error_message e.errorMessage = Except.ok v) :
    (call_until_valid_api get rg rt rn none).1 =
      [⟨rg, rt, rn, API_VERSION⟩, ⟨rg, rt, rn, v⟩] ∧
    ∀ e2 : HttpError, get rg rt rn v = Except.error e2 →
      (call_until_valid_api get rg rt rn none).2 =
        Except.error (PyExc.httpResponseError e2) := by
  have hbody : call_until_valid_api get rg rt rn none =
      (⟨rg, rt, rn, API_VERSION⟩ :: (call_until_valid_api_versioned get rg rt rn v).1,
       (call_until_valid_api_versioned get rg rt rn v).2) := by
    simp only [call_until_valid_api, h1, h2, h3, h4, if_true]
  constructor
  · rw [hbody]
    cases hg : get rg rt rn v <;> simp [call_until_valid_api_versioned, hg]
  · intro e2 hg
    rw [hbody]
    simp [call_until_valid_api_versioned, hg]

def c1msg : String :=
  "No registered resource provider found. The supported api-versions are '2019-01-01, 2020-06-01, 2021-04-01'. end"

def c1err : HttpError :=
  { statusCode := 400, errorCode := "NoRegisteredProviderFound", errorMessage := c1msg }

def c1err2 : HttpError :=
  { statusCode := 404, errorCode := "NotFound", errorMessage := "nope" }

def c1get : GetFn := fun _ _ _ v =>
  if v == API_VERSION then Except.error c1err else Except.error c1err2

/-- Witness for C1 at a concrete oracle: the default-version lookup fails
with a 400 `NoRegisteredProviderFound` error listing versions starting
with `2019-01-01`; the trace shows exactly one retry at `2019-01-01`, and
the retry's 404 error is raised. -/
theorem C1_witness :
    (call_until_valid_api c1get "G" "Microsoft.Compute/virtualMachines" "VM1" none).1 =
      [⟨"G", "Microsoft.Compute/virtualMachines", "VM1", API_VERSION⟩,
       ⟨"G", "Microsoft.Compute/virtualMachines", "VM1", "2019-01-01"⟩] ∧
    (call_until_valid_api c1get "G" "Microsoft.Compute/virtualMachines" "VM1" none).2 =
      Except.error (PyExc.httpResponseError c1err2) := by
  have h := C1_retry_once_with_first_listed_version c1get "G" "Microsoft.Compute/virtualMachines"
    "VM1" c1err "2019-01-01" rfl rfl rfl rfl
  exact ⟨h.1, h.2 c1err2 rfl⟩

def c2err : HttpError :=
  { statusCode := 403, errorCode := "AuthorizationFailed", errorMessage := "denied" }

def c2get : GetFn := fun _ _ _ _ => Except.error c2err

/-- Claim C2 (counterexample): an initial-lookup `HttpResponseError` that
is not a 400 `NoRegisteredProviderFound` does NOT propagate out of
`call_until_valid_api` — the Python `except` block falls through and the
function returns `None`.  Here a 403 error makes the function return
`Except.ok none` (no exception) after the single initial call, refuting
the claim that the error reaches the caller. -/
theorem C2_counterexample :
    c2get "G" "Microsoft.Compute/virtualMachines" "VM1" API_VERSION = Except.error c2err ∧
    c2err.statusCode ≠ 400 ∧
    call_until_valid_api c2get "G" "Microsoft.Compute/virtualMachines" "VM1" none =
      ([⟨"G", "Microsoft.Compute/virtualMachines", "VM1", API_VERSION⟩], Except.ok none) :=
  ⟨rfl, by decide, rfl⟩

/-- Claim C2 (amended): for every `HttpResponseError` raised by the
initial (default-version) lookup that is not a 400 response with error
code `"NoRegisteredProviderFound"`, the error is caught and swallowed:
`call_until_valid_api` performs no retry and returns `None` (no
resource), and no exception propagates to the caller. -/
theorem C2_amended_nonmatching_error_swallowed (get : GetFn) (rg rt rn : String) (e : HttpError)
    (h1 : get rg rt rn API_VERSION = Except.error e)
    (h2 : ¬(e.statusCode = 400 ∧ e.errorCode = "NoRegisteredProviderFound")) :
    call_until_valid_api get rg rt rn none =
      ([⟨rg, rt, rn, API_VERSION⟩], Except.ok none) := by
  simp only [call_until_valid_api, h1]
  by_cases hs : e.statusCode = 400
  · have hc : ¬ e.errorCode = "NoRegisteredProviderFound" := fun hc => h2 ⟨hs, hc⟩
    simp [hs, hc]
  · simp [hs]

/-- Witness for the amended C2 at the concrete 403 oracle. -/
theorem C2_amended_witness :
    call_until_valid_api c2get "G" "T" "N" none =
      ([⟨"G", "T", "N", API_VERSION⟩], Except.ok none) :=
  C2_amended_nonmatching_error_swallowed c2get "G" "T" "N" c2err rfl (by decide)

/-- Claim C4: for every fetched resource whose existing tag map already
contains the key `owner_id` or the key `owner_email`, `assign_owner`
performs no tag write: the result records no `TagWrite`, so the existing
owner tags are never overwritten. -/
theorem C4_no_overwrite_of_existing_owner_tags (get : GetFn) (user_id email : JValue)
    (resource sub rg p6 p7 rn : String)
    (r : AzureResource) (t : List (String × String)) (calls : List GetCall)
    (hsub : listGet (pySplit resource "/") 2 = Except.ok sub)
    (h4 : listGet (pySplit resource "/") 4 = Except.ok rg)
    (h6 : listGet (pySplit resource "/") 6 = Except.ok p6)
    (h7 : listGet (pySplit resource "/") 7 = Except.ok p7)
    (h8 : listGet (pySplit resource "/") 8 = Except.ok rn)
    (hcall : call_until_valid_api get rg (p6 ++ "/" ++ p7) rn none = (calls, Except.ok (some r)))
    (htags : r.tags = some t)
    (hkey : (hasTagKey t USER_ID_TAG_NAME || hasTagKey t EMAIL_TAG_NAME) = true) :
    assign_owner get user_id email resource = (calls, Except.ok none) := by
  have htne : t.isEmpty = false := by
    cases t with
    | nil => simp [hasTagKey] at hkey
    | cons a l => simp [List.isEmpty]
  have hcond : owner_condition (some r) = Except.ok false := by
    simp only [owner_condition, tagsFalsy, htags, htne, if_false, Bool.false_eq_true]
    rcases Bool.or_eq_true_iff.mp hkey with hk | hk <;> simp [hk]
  simp only [assign_owner, extract_subscription_id, hsub, h4, h6, h7, h8, hcall, hcond]

def c4res : AzureResource := { tags := some [("owner_id", "someone")] }

def c4get : GetFn := fun _ _ _ _ => Except.ok c4res

def c4resource : String :=
  "/subscriptions/S/resourceGroups/G/providers/Microsoft.Compute/virtualMachines/VM1"

/-- Witness for C4: a resource that already carries an `owner_id` tag is
fetched and no write is recorded. -/
theorem C4_witness :
    assign_owner c4get JValue.null (JValue.str "user@example.com") c4resource =
      ([⟨"G", "Microsoft.Compute/virtualMachines", "VM1", API_VERSION⟩], Except.ok none) :=
  C4_no_overwrite_of_existing_owner_tags c4get JValue.null (JValue.str "user@example.com")
    c4resource "S" "G" "Microsoft.Compute" "virtualMachines" "VM1" c4res
    [("owner_id", "someone")]
    [⟨"G", "Microsoft.Compute/virtualMachines", "VM1", API_VERSION⟩]
    rfl rfl rfl rfl rfl rfl rfl (by decide)

/-- Claim C5: for every fetched resource whose existing tags are empty,
missing, or contain neither `owner_id` nor `owner_email`, `assign_owner`
records a tag write at the resource scope with `owner_id` equal to the
extracted claim id and `owner_email` equal to the extracted claim email
(a nonempty string), or the sentinel `"ManagedIdentity"` when the email
claim is absent (`None`). -/
theorem C5_write_owner_tags_when_absent (get : GetFn) (user_id email ev : JValue)
    (resource sub rg p6 p7 rn : String) (r : AzureResource) (calls : List GetCall)
    (hsub : listGet (pySplit resource "/") 2 = Except.ok sub)
    (h4 : listGet (pySplit resource "/") 4 = Except.ok rg)
    (h6 : listGet (pySplit resource "/") 6 = Except.ok p6)
    (h7 : listGet (pySplit resource "/") 7 = Except.ok p7)
    (h8 : listGet (pySplit resource "/") 8 = Except.ok rn)
    (hcall : call_until_valid_api get rg (p6 ++ "/" ++ p7) rn none = (calls, Except.ok (some r)))
    (htags : r.tags = none ∨ r.tags = some [] ∨
      ∃ t, r.tags = some t ∧ hasTagKey t USER_ID_TAG_NAME = false ∧
        hasTagKey t EMAIL_TAG_NAME = false)
    (hemail : (email = JValue.null ∧ ev = JValue.str "ManagedIdentity") ∨
      (∃ s, ¬s = "" ∧ email = JValue.str s ∧ ev = email)) :
    assign_owner get user_id email resource =
      (calls, Except.ok (some ⟨resource, [(USER_ID_TAG_NAME, user_id), (EMAIL_TAG_NAME, ev)]⟩)) := by
  have hcond : owner_condition (some r) = Except.ok true := by
    rcases htags with h | h | ⟨t, ht, hk1, hk2⟩
    · simp [owner_condition, tagsFalsy, h]
    · simp [owner_condition, tagsFalsy, h]
    · by_cases hte : t.isEmpty
      · simp [owner_condition, tagsFalsy, ht, hte]
      · simp [owner_condition, tagsFalsy, ht, hte, hk1, hk2]
  have howner : owner_tags user_id email = [(USER_ID_TAG_NAME, user_id), (EMAIL_TAG_NAME, ev)] := by
    rcases hemail with ⟨he, hev⟩ | ⟨s, hs, he, hev⟩
    · subst he; subst hev; simp [owner_tags, truthy]
    · subst he; subst hev; simp [owner_tags, truthy, hs]
  simp only [assign_owner, extract_subscription_id, hsub, h4, h6, h7, h8, hcall, hcond, howner]

def c5res : AzureResource := { tags := some [("env", "prod")] }

def c5get : GetFn := fun _ _ _ _ => Except.ok c5res

def c5resource : String :=
  "/subscriptions/S/resourceGroups/G/providers/Microsoft.Compute/virtualMachines/VM1"

/-- Witness for C5: a resource whose tags lack both owner keys gets a
write with the claim id and the (nonempty) claim email. -/
theorem C5_witness :
    assign_owner c5get (JValue.str "uid-1") (JValue.str "user@example.com") c5resource =
      ([⟨"G", "Microsoft.Compute/virtualMachines", "VM1", API_VERSION⟩],
        Except.ok (some ⟨c5resource,
          [(USER_ID_TAG_NAME, JValue.str "uid-1"),
           (EMAIL_TAG_NAME, JValue.str "user@example.com")]⟩)) :=
  C5_write_owner_tags_when_absent c5get (JValue.str "uid-1") (JValue.str "user@example.com")
    (JValue.str "user@example.com") c5resource "S" "G" "Microsoft.Compute" "virtualMachines"
    "VM1" c5res
    [⟨"G", "Microsoft.Compute/virtualMachines", "VM1", API_VERSION⟩]
    rfl rfl rfl rfl rfl rfl
    (Or.inr (Or.inr ⟨[("env", "prod")], rfl, by decide, by decide⟩))
    (Or.inr ⟨"user@example.com", by decide, rfl, rfl⟩)

/-- Claim C9: when the versioned lookup returns no resource object
(Python `None`), `assign_owner` never records a tag write — in fact the
tag-presence check dereferences `None.tags` and raises `AttributeError`,
so `create_or_update_at_scope` is unreachable and a write happens only
when the lookup produced a resource. -/
theorem C9_no_write_when_lookup_yields_none (get : GetFn) (user_id email : JValue)
    (resource sub rg p6 p7 rn : String) (calls : List GetCall)
    (hsub : listGet (pySplit resource "/") 2 = Except.ok sub)
    (h4 : listGet (pySplit resource "/") 4 = Except.ok rg)
    (h6 : listGet (pySplit resource "/") 6 = Except.ok p6)
    (h7 : listGet (pySplit resource "/") 7 = Except.ok p7)
    (h8 : listGet (pySplit resource "/") 8 = Except.ok rn)
    (hcall : call_until_valid_api get rg (p6 ++ "/" ++ p7) rn none = (calls, Except.ok none)) :
    assign_owner get user_id email resource = (calls, Except.error PyExc.attributeError) := by
  simp only [assign_owner, extract_subscription_id, hsub, h4, h6, h7, h8, hcall, owner_condition]

def c9err : HttpError :=
  { statusCode := 500, errorCode := "InternalServerError", errorMessage := "boom" }

def c9get : GetFn := fun _ _ _ _ => Except.error c9err

def c9resource : String :=
  "/subscriptions/S/resourceGroups/G/providers/Microsoft.Compute/virtualMachines/VM1"

/-- Witness for C9: a swallowed 500 error makes the lookup return `None`;
no write is recorded (an `AttributeError` is raised instead). -/
theorem C9_witness :
    assign_owner c9get (JValue.str "uid-1") (JValue.str "user@example.com") c9resource =
      ([⟨"G", "Microsoft.Compute/virtualMachines", "VM1", API_VERSION⟩],
        Except.error PyExc.attributeError) :=
  C9_no_write_when_lookup_yields_none c9get (JValue.str "uid-1") (JValue.str "user@example.com")
    c9resource "S" "G" "Microsoft.Compute" "virtualMachines" "VM1"
    [⟨"G", "Microsoft.Compute/virtualMachines", "VM1", API_VERSION⟩]
    rfl rfl rfl rfl rfl rfl

/-- Claim C10: when the email claim is present but equal to the empty
string (a falsy value), the `owner_email` tag written by `assign_owner`
is the sentinel `"ManagedIdentity"`: the fallback `email if email else
"ManagedIdentity"` is triggered by any falsy email value, not only by an
absent claim. -/
theorem C10_empty_email_written_as_sentinel (get : GetFn) (user_id : JValue)
    (resource sub rg p6 p7 rn : String) (r : AzureResource) (calls : List GetCall)
    (hsub : listGet (pySplit resource "/") 2 = Except.ok sub)
    (h4 : listGet (pySplit resource "/") 4 = Except.ok rg)
    (h6 : listGet (pySplit resource "/") 6 = Except.ok p6)
    (h7 : listGet (pySplit resource "/") 7 = Except.ok p7)
    (h8 : listGet (pySplit resource "/") 8 = Except.ok rn)
    (hcall : call_until_valid_api get rg (p6 ++ "/" ++ p7) rn none = (calls, Except.ok (some r)))
    (htags : tagsFalsy r.tags = true) :
    assign_owner get user_id (JValue.str "") resource =
      (calls, Except.ok (some ⟨resource,
        [(USER_ID_TAG_NAME, user_id), (EMAIL_TAG_NAME, JValue.str "ManagedIdentity")]⟩)) := by
  have hcond : owner_condition (some r) = Except.ok true := by
    simp [owner_condition, htags]
  have howner : owner_tags user_id (JValue.str "") =
      [(USER_ID_TAG_NAME, user_id), (EMAIL_TAG_NAME, JValue.str "ManagedIdentity")] := by
    simp [owner_tags, truthy]
  simp only [assign_owner, extract_subscription_id, hsub, h4, h6, h7, h8, hcall, hcond, howner]

def c10res : AzureResource := { tags := none }

def c10get : GetFn := fun _ _ _ _ => Except.ok c10res

def c10resource : String :=
  "/subscriptions/S/resourceGroups/G/providers/Microsoft.Compute/virtualMachines/VM1"

/-- Witness for C10: an empty-string email claim yields the
`"ManagedIdentity"` sentinel in the recorded write. -/
theorem C10_witness :
    assign_owner c10get (JValue.str "uid-1") (JValue.str "") c10resource =
      ([⟨"G", "Microsoft.Compute/virtualMachines", "VM1", API_VERSION⟩],
        Except.ok (some ⟨c10resource,
          [(USER_ID_TAG_NAME, JValue.str "uid-1"),
           (EMAIL_TAG_NAME, JValue.str "ManagedIdentity")]⟩)) :=
  C10_empty_email_written_as_sentinel c10get (JValue.str "uid-1") c10resource "S" "G"
    "Microsoft.Compute" "virtualMachines" "VM1" c10res
    [⟨"G", "Microsoft.Compute/virtualMachines", "VM1", API_VERSION⟩]
    rfl rfl rfl rfl rfl rfl rfl

def c3get : GetFn := fun _ _ _ _ =>
  Except.error { statusCode := 500, errorCode := "InternalServerError", errorMessage := "boom" }

def c3event : JValue := JValue.obj [("resourceUri", JValue.num 123)]

/-- Claim C3, evaluated at the failing input: for the event payload
`{"resourceUri": 123}` (a non-string `resourceUri`), `extract_metadata`
raises `AttributeError` at `path.split`, the local `resource` of `main`
is never bound, and the `except` handler's log f-string
`f"... With resource: {resource}"` itself raises `UnboundLocalError`,
which propagates out of `main` — `main` does not complete normally, so
the claim that every exception is caught and logged fails on the code. -/
theorem C3_main_raises_at_failing_input :
    update_resource_metadata.main c3get c3event = Except.error PyExc.unboundLocalError := rfl

def c6get : GetFn := fun _ _ _ _ =>
  Except.error { statusCode := 500, errorCode := "InternalServerError", errorMessage := "boom" }

def c6path : String :=
  "/subscriptions/S/resourceGroups/G/providers/Foo.Resources/deployments/D"

def c6event : JValue := JValue.obj [("resourceUri", JValue.str c6path)]

/-- Claim C6 (counterexample): the ignore-list entries of the code are
`"Microsoft.Resources/deployments"` and `"Microsoft.Resources/tags"`, not
the bare `"Resources/deployments"`/`"Resources/tags"` of the claim.  A
resource path containing `"Resources/deployments"` inside the foreign
provider `"Foo.Resources"` is NOT filtered: processing continues and a
resource lookup occurs (one recorded get call), refuting the claim that
such a path stops processing with no side effect. -/
theorem C6_counterexample :
    strContains c6path "Resources/deployments" = true ∧
    update_resource_metadata.main c6get c6event =
      Except.ok ⟨[⟨"G", "Foo.Resources/deployments", "D", API_VERSION⟩], none,
        some (PyExc.attributeError, some c6path)⟩ :=
  ⟨by decide, rfl⟩

/-- Claim C6 (amended): for every event whose extracted resource path
contains one of the code's ignore-list substrings
(`"Microsoft.Resources/deployments"`, `"Microsoft.Resources/tags"`),
processing stops with no side effect: no resource lookup is recorded and
no tag write occurs. -/
theorem C6_amended_ignored_resource_types_skipped (get : GetFn) (event user_id email : JValue)
    (res : String)
    (hx : extract_metadata event = Except.ok (user_id, email, some res))
    (hig : (strContains res "Microsoft.Resources/deployments" ||
            strContains res "Microsoft.Resources/tags") = true) :
    update_resource_metadata.main get event =
      Except.ok { getCalls := [], write := none, logged := none } := by
  have hchk : ignored_check (some res) = Except.ok true := by
    simp only [ignored_check, IGNORED_RESOURCES, List.any_cons, List.any_nil, Bool.or_false]
    rw [hig]
  simp only [update_resource_metadata.main, hx, hchk]

def c6wget : GetFn := fun _ _ _ _ => Except.ok { tags := none }

def c6wpath : String :=
  "/subscriptions/S/resourceGroups/G/providers/Microsoft.Resources/deployments/D"

def c6wevent : JValue := JValue.obj [("resourceUri", JValue.str c6wpath)]

/-- Witness for the amended C6: a `Microsoft.Resources/deployments` path
is filtered out — no get call, no write, nothing logged. -/
theorem C6_amended_witness :
    update_resource_metadata.main c6wget c6wevent =
      Except.ok { getCalls := [], write := none, logged := none } :=
  C6_amended_ignored_resource_types_skipped c6wget c6wevent JValue.null JValue.null
    c6wpath rfl (by decide)

def c7get : GetFn := fun _ _ _ _ => Except.ok { tags := none }

def c7path : String :=
  "/subscriptions/S/resourceGroups/G/providers/Microsoft.Compute/virtualMachines/VM1"

def c7event : JValue := JValue.obj [("resourceUri", JValue.str c7path)]

/-- Claim C7 (counterexample): an event payload lacking the `claims` map
(but carrying a well-formed `resourceUri`) is malformed in the claim's
sense, yet no index error occurs downstream: extraction yields null
identity fields, processing continues, and a tag write IS performed
(with a null `owner_id` and the `"ManagedIdentity"` sentinel), refuting
"downstream path handling fails with an index error ... no tag write
performed". -/
theorem C7_counterexample :
    pyContains c7event CLAIMS_KEY = Except.ok false ∧
    update_resource_metadata.main c7get c7event =
      Except.ok ⟨[⟨"G", "Microsoft.Compute/virtualMachines", "VM1", API_VERSION⟩],
        some ⟨c7path, [(USER_ID_TAG_NAME, JValue.null),
          (EMAIL_TAG_NAME, JValue.str "ManagedIdentity")]⟩,
        none⟩ :=
  ⟨rfl, rfl⟩

/-- Claim C7 (amended): for every event lacking the `resourceUri` key
whose extraction completes (yielding a null resource and null fields for
any missing claims, without raising), the downstream ignore-filter
membership test on the null resource fails with a `TypeError` (not an
index error), which the top-level handler catches and logs with the null
resource; no resource lookup and no tag write occurs.  (An event lacking
only the `claims` map instead proceeds normally with null identity
fields, as the counterexample shows.) -/
theorem C7_amended_missing_resource_uri_logged (get : GetFn) (event user_id email : JValue)
    (hx : extract_metadata event = Except.ok (user_id, email, none)) :
    update_resource_metadata.main get event =
      Except.ok { getCalls := [], write := none, logged := some (PyExc.typeError, none) } := by
  simp only [update_resource_metadata.main, hx, ignored_check]

def c7wget : GetFn := fun _ _ _ _ => Except.ok { tags := none }

def c7wevent : JValue := JValue.obj [("claims", JValue.obj [])]

/-- Witness for the amended C7: an event with claims but no `resourceUri`
leads to a logged `TypeError` and no call or write. -/
theorem C7_amended_witness :
    update_resource_metadata.main c7wget c7wevent =
      Except.ok { getCalls := [], write := none, logged := some (PyExc.typeError, none) } :=
  C7_amended_missing_resource_uri_logged c7wget c7wevent JValue.null JValue.null rfl

def c8path : String :=
  "/subscriptions/S/resourceGroups/G/providers/Microsoft.Compute/virtualMachines/VM1/extra"

def c8get : GetFn := fun _ _ _ _ =>
  Except.error { statusCode := 500, errorCode := "InternalServerError", errorMessage := "boom" }

/-- Claim C8: the example path splits into 10 `/`-delimited segments;
`extract_resource_path` truncates it to its first 9 segments, dropping
`"extra"`; the subscription id is segment 2 (`"S"`); and the lookup that
`assign_owner` issues (observed through the recorded get call) uses
resource group = segment 4 (`"G"`), resource type = segments 6+7
(`"Microsoft.Compute/virtualMachines"`), and resource name = segment 8
(`"VM1"`). -/
theorem C8_path_segment_derivation :
    pySplit c8path "/" = ["", "subscriptions", "S", "resourceGroups", "G", "providers",
      "Microsoft.Compute", "virtualMachines", "VM1", "extra"] ∧
    extract_resource_path c8path =
      "/subscriptions/S/resourceGroups/G/providers/Microsoft.Compute/virtualMachines/VM1" ∧
    extract_subscription_id (extract_resource_path c8path) = Except.ok "S" ∧
    (assign_owner c8get JValue.null JValue.null (extract_resource_path c8path)).1 =
      [⟨"G", "Microsoft.Compute/virtualMachines", "VM1", API_VERSION⟩] :=
  ⟨rfl, rfl, rfl, rfl⟩
